import Mathlib

/-!
Verification of `freqtrade/pairlist/BestPairList.py`.

Shallow embedding conventions:
* Python floats become `ℚ`.  Pandas/NumPy `NaN` results (means over empty
  series) become `none : Option ℚ`; a pandas comparison against `NaN`
  yields `False`, which the `opt*` predicates below reproduce by returning
  `false` on `none`.
* External collaborators (the exchange, pandas' `sort_values`, Python's
  `random.shuffle`) are fields of `Externals`; theorems assume of the sort
  and shuffle only that they permute their input, which is all either
  library guarantees here (`sort_values` uses the unstable default
  quicksort kind).
* Wall-clock time is an explicit `now : ℚ` argument
  (`datetime.now().timestamp()`); `int(...)` truncation is `pyInt`.
* `gen_pairlist` also returns an event trace recording, in execution
  order, the write to `_last_refresh` and the per-candidate
  `get_historic_ohlcv` fetches, so that "the timestamp is set before the
  fetching begins" is a statement about the trace.
-/

namespace BestPairList

/-- One OHLCV bar after `ohlcv_to_dataframe` conversion.  `bopen` stands
for the `open` column (a Lean keyword).  Only `high`, `low`, `close` are
consumed by the metric computations. -/
structure Bar where
  bopen : ℚ
  high : ℚ
  low : ℚ
  close : ℚ
  volume : ℚ
deriving DecidableEq

/-- One entry of the ticker snapshot (`tickers` dict value); the source
only reads its `symbol` field. -/
structure Ticker where
  symbol : String
deriving DecidableEq

/-- One element of `pairs_performance`: the dict
`{"pair": .., "avg_rate_change": .., "avg_atr": ..}`.  The two averages
are `none` when the corresponding pandas mean is `NaN` (series of fewer
than two bars). -/
structure PerfRecord where
  pair : String
  avg_rate_change : Option ℚ
  avg_atr : Option ℚ
deriving DecidableEq

/-- The instance fields of `BestPairList` that its methods read or write. -/
structure PairListState where
  stake_currency : String
  number_pairs : ℕ
  sort_key : String
  min_value : ℚ
  refresh_period : ℕ
  timeframe : String
  since_date : ℤ
  last_refresh : ℤ
  number_assets : ℕ
deriving DecidableEq

/-- External collaborators of `gen_pairlist`.
`fetchSeries` is `exchange.get_historic_ohlcv` composed with
`ohlcv_to_dataframe (fill_missing := False, drop_incomplete := True)`
(the converter lives outside this file's source); `sortDesc` is pandas
`DataFrame.sort_values('avg_atr', ascending=False)` with the default
quicksort kind; `shuffle` is `random.shuffle`. -/
structure Externals where
  get_pair_quote_currency : String → String
  fetchSeries : String → List Bar
  sortDesc : List PerfRecord → List PerfRecord
  shuffle : List String → List String

/-- Observable effects of one `gen_pairlist` call, in execution order. -/
inductive Event where
  | setRefresh : ℤ → Event
  | fetch : String → Event
deriving DecidableEq

/-- Python `int(q)` on a nonnegative-or-any rational: truncation toward
zero. -/
def pyInt (q : ℚ) : ℤ :=
  Int.tdiv q.num (q.den : ℤ)

/-- `ta.ROCP(close, timeperiod=1)` restricted to its defined entries:
`(close[i] - close[i-1]) / close[i-1]` for `i ≥ 1` (entry 0 is NaN and is
skipped by the pandas mean). -/
def rocpVals (bars : List Bar) : List ℚ :=
  List.zipWith (fun prev cur => (cur.close - prev.close) / prev.close) bars bars.tail

/-- `ta.ATR(high, low, close, timeperiod=1)` restricted to its defined
entries: the true range
`max (high-low) (max |high - prevClose| |low - prevClose|)` for `i ≥ 1`
(entry 0 is NaN and is skipped by the pandas mean). -/
def trVals (bars : List Bar) : List ℚ :=
  List.zipWith
    (fun prev cur =>
      max (cur.high - cur.low) (max |cur.high - prev.close| |cur.low - prev.close|))
    bars bars.tail

/-- `np.mean` applied to a pandas column whose defined entries are `l`
(pandas `Series.mean` skips NaNs): `NaN`, i.e. `none`, when no entry is
defined. -/
def seriesMean (l : List ℚ) : Option ℚ :=
  if l.isEmpty then none else some (l.sum / (l.length : ℚ))

/-- Pandas `column > 0` (False on NaN). -/
def optGtZero : Option ℚ → Bool
  | none => false
  | some q => decide (0 < q)

/-- Pandas `column <= 0.01` (False on NaN). -/
def optLeMax : Option ℚ → Bool
  | none => false
  | some q => decide (q ≤ 1 / 100)

/-- Pandas `column >= 0.0005` (False on NaN). -/
def optGeMin : Option ℚ → Bool
  | none => false
  | some q => decide (5 / 10000 ≤ q)

/-- The quote-currency filter and symbol projection:
`filtered_tickers = [v for k, v in tickers.items() if quote(k) == stake]`
then `pairlist = [s['symbol'] for s in filtered_tickers]`. -/
def candidatePairs (ext : Externals) (st : PairListState)
    (tickers : List (String × Ticker)) : List String :=
  ((tickers.filter fun kv => ext.get_pair_quote_currency kv.1 == st.stake_currency).map
    fun kv => kv.2.symbol)

/-- The `pairs_performance` loop: one record per candidate whose fetched,
converted series is nonempty (`if len(ohlcv) > 0`); empty series are
skipped silently. -/
def perfRecords (ext : Externals) (pairlist : List String) : List PerfRecord :=
  pairlist.filterMap fun pair =>
    let ohlcv := ext.fetchSeries pair
    if 0 < ohlcv.length then
      some { pair := pair
             avg_rate_change := seriesMean (rocpVals ohlcv)
             avg_atr := seriesMean (trVals ohlcv) }
    else none

/-- The three sequential dataframe filters:
`avg_rate_change > 0`, then `avg_atr <= 0.01`, then `avg_atr >= 0.0005`. -/
def survivors (records : List PerfRecord) : List PerfRecord :=
  ((records.filter fun r => optGtZero r.avg_rate_change).filter
      fun r => optLeMax r.avg_atr).filter
    fun r => optGeMin r.avg_atr

/-- The recompute branch of `gen_pairlist`: filter the universe, build
performance records, filter, sort by `avg_atr` descending, keep the top
25, shuffle, keep `_number_pairs`. -/
def freshPairlist (ext : Externals) (st : PairListState)
    (tickers : List (String × Ticker)) : List String :=
  let best := survivors (perfRecords ext (candidatePairs ext st tickers))
  let top := (ext.sortDesc best).take 25
  (ext.shuffle (top.map PerfRecord.pair)).take st.number_pairs

/-- The refresh gate:
`self._last_refresh + self.refresh_period < datetime.now().timestamp()`. -/
def shouldRefresh (st : PairListState) (now : ℚ) : Bool :=
  decide ((st.last_refresh : ℚ) + (st.refresh_period : ℚ) < now)

/-- `gen_pairlist(cached_pairlist, tickers)`: returns the pairlist, the
state after the call, and the trace of effects. -/
def genPairlist (ext : Externals) (st : PairListState) (now : ℚ)
    (cached_pairlist : List String) (tickers : List (String × Ticker)) :
    List String × PairListState × List Event :=
  if shouldRefresh st now then
    let st' : PairListState := { st with last_refresh := pyInt now }
    (freshPairlist ext st' tickers, st',
      Event.setRefresh (pyInt now) :: (candidatePairs ext st' tickers).map Event.fetch)
  else
    (cached_pairlist, st, [])

/-- `filter_pairlist(pairlist, tickers)`: delegates to the external
`verify_blacklist`, logs, and returns; it writes no instance field. -/
def filterPairlist (verify_blacklist : List String → List String)
    (st : PairListState) (pairlist : List String) :
    List String × PairListState :=
  (verify_blacklist pairlist, st)

/-- The module-level `SORT_VALUES` constant. -/
def SORT_VALUES : List String :=
  ["askVolume", "bidVolume", "quoteVolume"]

/-- `_validate_keys(key)`: membership in `SORT_VALUES`. -/
def validate_keys (key : String) : Bool :=
  SORT_VALUES.contains key

/-- The recognised keys of `self._pairlistconfig`. -/
structure PairlistConfig where
  number_assets : Option ℕ
  sort_key : Option String
  min_value : Option ℚ
deriving DecidableEq

/-- The global-config fields the constructor reads. -/
structure Config where
  stake_currency : String
  ticker_interval : String
deriving DecidableEq

/-- Result of a successful construction: the initial state and whether the
deprecation warning was logged. -/
structure InitResult where
  state : PairListState
  deprecation_warning : Bool
deriving DecidableEq

/-- `BestPairList.__init__`.  `exchange_has_fetchTickers` models
`exchange.exchange_has('fetchTickers')`; `randDraw` models the value
returned by `np.random.randint(10, 25)`; `sinceAnchor` models the
3-days-ago millisecond timestamp; `lastRefreshInit` is the sentinel
`_last_refresh` inherited from `IPairList`.  `OperationalException` (the
spec's `ConfigurationError`) becomes `Except.error`. -/
def initBestPairList (exchange_has_fetchTickers : Bool) (config : Config)
    (plc : PairlistConfig) (randDraw : ℕ) (sinceAnchor : ℤ)
    (lastRefreshInit : ℤ) : Except String InitResult :=
  if plc.number_assets.isNone then
    .error "number_assets not specified. Please check your configuration for pairlist.config.number_assets"
  else
    let sort_key := plc.sort_key.getD "quoteVolume"
    let st : PairListState :=
      { stake_currency := config.stake_currency
        number_pairs := randDraw
        sort_key := sort_key
        min_value := plc.min_value.getD 0
        refresh_period := 7200
        timeframe := config.ticker_interval
        since_date := sinceAnchor
        last_refresh := lastRefreshInit
        number_assets := plc.number_assets.getD 0 }
    if !exchange_has_fetchTickers then
      .error "Exchange does not support dynamic whitelist. Please edit your config and restart the bot."
    else if !(validate_keys sort_key) then
      .error ("key " ++ sort_key ++ " not in SORT_VALUES")
    else
      .ok { state := st, deprecation_warning := sort_key != "quoteVolume" }

/-- `short_desc()`: the startup message; the only consumer of
`number_assets` after construction. -/
def short_desc (st : PairListState) : String :=
  "BestPairList - top " ++ toString st.number_assets ++ " volume pairs."

/-- `needstickers`: constant `True`. -/
def needstickers : Bool := true

/-! ### Helper lemmas -/

theorem candidatePairs_set_last_refresh (ext : Externals) (st : PairListState)
    (tickers : List (String × Ticker)) (x : ℤ) :
    candidatePairs ext { st with last_refresh := x } tickers = candidatePairs ext st tickers :=
  rfl

theorem shouldRefresh_true_iff (st : PairListState) (now : ℚ) :
    shouldRefresh st now = true ↔ (st.last_refresh : ℚ) + (st.refresh_period : ℚ) < now := by
  simp [shouldRefresh]

theorem shouldRefresh_false_iff (st : PairListState) (now : ℚ) :
    shouldRefresh st now = false ↔ now ≤ (st.last_refresh : ℚ) + (st.refresh_period : ℚ) := by
  simp [shouldRefresh]

theorem genPairlist_of_refresh (ext : Externals) (st : PairListState) (now : ℚ)
    (cached : List String) (tickers : List (String × Ticker))
    (h : shouldRefresh st now = true) :
    genPairlist ext st now cached tickers =
      (freshPairlist ext { st with last_refresh := pyInt now } tickers,
       { st with last_refresh := pyInt now },
       Event.setRefresh (pyInt now) :: (candidatePairs ext st tickers).map Event.fetch) := by
  simp [genPairlist, h, candidatePairs_set_last_refresh]

theorem genPairlist_of_cached (ext : Externals) (st : PairListState) (now : ℚ)
    (cached : List String) (tickers : List (String × Ticker))
    (h : shouldRefresh st now = false) :
    genPairlist ext st now cached tickers = (cached, st, []) := by
  simp [genPairlist, h]

/-! ### Concrete fixtures used by witnesses and counterexamples -/

/-- An exchange/library environment where everything is degenerate: every
pair quotes in USDT, every historical fetch is empty, and the sort and
shuffle are identities (legitimate instances of a permutation-valued sort
and shuffle). -/
def ext0 : Externals :=
  { get_pair_quote_currency := fun _ => "USDT"
    fetchSeries := fun _ => []
    sortDesc := id
    shuffle := id }

/-- A state as produced by construction: refresh period 7200 s,
`_number_pairs` 10, last refresh at timestamp 0. -/
def st0 : PairListState :=
  { stake_currency := "USDT"
    number_pairs := 10
    sort_key := "quoteVolume"
    min_value := 0
    refresh_period := 7200
    timeframe := "5m"
    since_date := 0
    last_refresh := 0
    number_assets := 20 }

/-! ### Claim theorems -/

/-- Claim C1, counterexample.  The claim says elapsed time exactly equal
to the refresh period already triggers a recomputation.  In the code the
gate is the strict `self._last_refresh + self.refresh_period < now`, so at
`now = 7200` with `_last_refresh = 0` and period 7200 the elapsed time
equals the period, yet `gen_pairlist` returns the cached list unchanged,
leaves the state untouched and performs no fetch (empty trace): no
recomputation happens. -/
theorem gen_boundary_no_recompute_cex :
    (7200 : ℚ) - (st0.last_refresh : ℚ) ≥ (st0.refresh_period : ℚ) ∧
    genPairlist ext0 st0 7200 ["ETH/USDT"] [] = (["ETH/USDT"], st0, []) := by
  constructor
  · norm_num [st0]
  · apply genPairlist_of_cached
    rw [shouldRefresh_false_iff]
    norm_num [st0]

/-- Claim C1 (amended): a full recomputation is performed exactly when
`now - last_refresh_timestamp` is STRICTLY greater than
`refresh_period_seconds`; when the elapsed time is less than or equal to
the refresh period (including the boundary case of exact equality) the
cached list is returned with no recomputation. -/
theorem gen_refresh_strict_boundary (ext : Externals) (st : PairListState) (now : ℚ)
    (cached : List String) (tickers : List (String × Ticker)) :
    (shouldRefresh st now = true ↔ (st.refresh_period : ℚ) < now - (st.last_refresh : ℚ)) ∧
    (¬ ((st.refresh_period : ℚ) < now - (st.last_refresh : ℚ)) →
      genPairlist ext st now cached tickers = (cached, st, [])) ∧
    ((st.refresh_period : ℚ) < now - (st.last_refresh : ℚ) →
      (genPairlist ext st now cached tickers).2.2 =
        Event.setRefresh (pyInt now) :: (candidatePairs ext st tickers).map Event.fetch) := by
  have hiff : shouldRefresh st now = true ↔
      (st.refresh_period : ℚ) < now - (st.last_refresh : ℚ) := by
    rw [shouldRefresh_true_iff]
    constructor <;> intro h <;> linarith
  refine ⟨hiff, ?_, ?_⟩
  · intro h
    apply genPairlist_of_cached
    have : ¬ shouldRefresh st now = true := fun hc => h (hiff.mp hc)
    simpa using this
  · intro h
    rw [genPairlist_of_refresh ext st now cached tickers (hiff.mpr h)]

/-- Claim C1 (amended), witness: at elapsed time 3600 < 7200 the cached
list comes back untouched. -/
theorem gen_refresh_strict_boundary_w :
    genPairlist ext0 st0 3600 ["A/USDT"] [] = (["A/USDT"], st0, []) :=
  (gen_refresh_strict_boundary ext0 st0 3600 ["A/USDT"] []).2.1 (by norm_num [st0])

/-- Claim C4: whenever the elapsed time since the last refresh is smaller
than the refresh period, `gen_pairlist` returns the supplied
`cached_pairlist` verbatim, with unchanged state and no effects; hence two
calls inside the same refresh window with the same cached list (even with
different tickers, clocks or collaborators) return identical output. -/
theorem gen_cached_verbatim (ext ext' : Externals) (st : PairListState)
    (now now' : ℚ) (cached : List String)
    (tickers tickers' : List (String × Ticker))
    (h1 : now - (st.last_refresh : ℚ) < (st.refresh_period : ℚ))
    (h2 : now' - (st.last_refresh : ℚ) < (st.refresh_period : ℚ)) :
    genPairlist ext st now cached tickers = (cached, st, []) ∧
    (genPairlist ext st now cached tickers).1 =
      (genPairlist ext' st now' cached tickers').1 := by
  have e1 : genPairlist ext st now cached tickers = (cached, st, []) := by
    apply genPairlist_of_cached
    rw [shouldRefresh_false_iff]
    linarith
  have e2 : genPairlist ext' st now' cached tickers' = (cached, st, []) := by
    apply genPairlist_of_cached
    rw [shouldRefresh_false_iff]
    linarith
  exact ⟨e1, by rw [e1, e2]⟩

/-- Claim C4, witness: two in-window calls at times 100 and 200 both hand
back the cached list. -/
theorem gen_cached_verbatim_w :
    genPairlist ext0 st0 100 ["X/USDT", "Y/USDT"] [] =
      (["X/USDT", "Y/USDT"], st0, []) ∧
    (genPairlist ext0 st0 100 ["X/USDT", "Y/USDT"] []).1 =
      (genPairlist ext0 st0 200 ["X/USDT", "Y/USDT"] []).1 :=
  gen_cached_verbatim ext0 ext0 st0 100 200 ["X/USDT", "Y/USDT"] [] []
    (by norm_num [st0]) (by norm_num [st0])

/-- Claim C5: construction fails (the spec's `ConfigurationError`, this
code's `OperationalException`) exactly when `number_assets` is missing
from the pairlist configuration, the exchange lacks bulk ticker retrieval,
or the resolved sort key is not one of `SORT_VALUES`; otherwise it
succeeds, and the deprecation warning is emitted precisely when a sort key
other than `quoteVolume` was supplied. -/
theorem init_error_characterization (eh : Bool) (cfg : Config) (plc : PairlistConfig)
    (r : ℕ) (anchor lr : ℤ) :
    ((∃ res, initBestPairList eh cfg plc r anchor lr = .ok res) ↔
      (plc.number_assets.isSome = true ∧ eh = true ∧
        plc.sort_key.getD "quoteVolume" ∈ SORT_VALUES)) ∧
    (∀ res, initBestPairList eh cfg plc r anchor lr = .ok res →
      (res.deprecation_warning = true ↔
        ∃ k, plc.sort_key = some k ∧ k ≠ "quoteVolume")) := by
  rcases hna : plc.number_assets with _ | n
  case none =>
    constructor
    · simp [initBestPairList, hna]
    · intro res hres
      simp [initBestPairList, hna] at hres
  case some =>
    cases eh
    case false =>
      constructor
      · simp [initBestPairList, hna]
      · intro res hres
        simp [initBestPairList, hna] at hres
    case true =>
      by_cases hk : validate_keys (plc.sort_key.getD "quoteVolume") = true
      · have hmem : plc.sort_key.getD "quoteVolume" ∈ SORT_VALUES := by
          simpa [validate_keys] using hk
        constructor
        · simp [initBestPairList, hna, hk, hmem]
        · intro res hres
          simp [initBestPairList, hna, hk] at hres
          rcases hs : plc.sort_key with _ | k
          · rw [hs] at hres
            simp only [← hres]
            simp
          · rw [hs] at hres
            simp only [← hres]
            simp
      · have hmem : plc.sort_key.getD "quoteVolume" ∉ SORT_VALUES := fun hm =>
          hk (by simpa [validate_keys] using hm)
        constructor
        · simp [initBestPairList, hna, hk, hmem]
        · intro res hres
          simp [initBestPairList, hna, hk] at hres

/-- Claim C5, witness: with `number_assets` supplied, a capable exchange
and sort key `askVolume`, construction succeeds and (the key being
present and different from `quoteVolume`) emits the deprecation
warning. -/
theorem init_error_characterization_w :
    ∃ res, initBestPairList true
        { stake_currency := "USDT", ticker_interval := "5m" }
        { number_assets := some 20, sort_key := some "askVolume", min_value := none }
        12 0 0 = .ok res ∧ res.deprecation_warning = true := by
  obtain ⟨res, hres⟩ :=
    (init_error_characterization true
      { stake_currency := "USDT", ticker_interval := "5m" }
      { number_assets := some 20, sort_key := some "askVolume", min_value := none }
      12 0 0).1.mpr ⟨rfl, rfl, by decide⟩
  refine ⟨res, hres, ?_⟩
  exact ((init_error_characterization true
      { stake_currency := "USDT", ticker_interval := "5m" }
      { number_assets := some 20, sort_key := some "askVolume", min_value := none }
      12 0 0).2 res hres).mpr ⟨"askVolume", rfl, by decide⟩

/-- Claim C6, counterexample.  The claim's consequence fails: suppose a
recomputation began at time 0 (so `_last_refresh` was set to 0 at its
start) and itself took 7300 s, longer than the 7200 s refresh period.
The next call, at time 7300, satisfies the refresh gate and performs a
full recomputation again (the trace contains the `setRefresh` write),
contradicting "a recompute that takes longer than the refresh period does
not trigger a re-entrant recomputation on the next call". -/
theorem refresh_long_recompute_cex :
    (st0.refresh_period : ℚ) < 7300 - (st0.last_refresh : ℚ) ∧
    genPairlist ext0 st0 7300 [] [] =
      ([], { st0 with last_refresh := 7300 }, [Event.setRefresh 7300]) := by
  have h : shouldRefresh st0 7300 = true := by
    rw [shouldRefresh_true_iff]
    norm_num [st0]
  refine ⟨by norm_num [st0], ?_⟩
  rw [genPairlist_of_refresh ext0 st0 7300 [] [] h]
  decide

/-- Claim C6 (amended): on the transition into a recomputation,
`gen_pairlist` sets `last_refresh_timestamp` to the current time before
any per-candidate historical-data fetch (the `setRefresh` write heads the
trace), so subsequent refreshes are gated relative to the START of the
recompute; consequently a recompute that itself takes longer than the
refresh period DOES trigger another recomputation on the next call. -/
theorem refresh_timestamp_set_before_fetch (ext : Externals) (st : PairListState)
    (now : ℚ) (cached : List String) (tickers : List (String × Ticker))
    (h : shouldRefresh st now = true) :
    (genPairlist ext st now cached tickers).2.2 =
      Event.setRefresh (pyInt now) :: (candidatePairs ext st tickers).map Event.fetch ∧
    (genPairlist ext st now cached tickers).2.1.last_refresh = pyInt now ∧
    (∀ now' : ℚ, shouldRefresh (genPairlist ext st now cached tickers).2.1 now' = true ↔
      ((pyInt now : ℤ) : ℚ) + (st.refresh_period : ℚ) < now') := by
  rw [genPairlist_of_refresh ext st now cached tickers h]
  refine ⟨rfl, rfl, fun now' => ?_⟩
  rw [shouldRefresh_true_iff]

/-- Claim C6 (amended), witness: a concrete refreshing call writes the
truncated current time into `_last_refresh` and heads its trace with that
write. -/
theorem refresh_timestamp_set_before_fetch_w :
    (genPairlist ext0 st0 7300 [] []).2.2 =
      Event.setRefresh (pyInt 7300) :: (candidatePairs ext0 st0 []).map Event.fetch ∧
    (genPairlist ext0 st0 7300 [] []).2.1.last_refresh = pyInt 7300 := by
  have h : shouldRefresh st0 7300 = true := by
    rw [shouldRefresh_true_iff]
    norm_num [st0]
  exact ⟨(refresh_timestamp_set_before_fetch ext0 st0 7300 [] [] h).1,
    (refresh_timestamp_set_before_fetch ext0 st0 7300 [] [] h).2.1⟩

theorem freshPairlist_eq (ext : Externals) (st : PairListState)
    (tickers : List (String × Ticker)) :
    freshPairlist ext st tickers =
      (ext.shuffle
        (((ext.sortDesc (survivors (perfRecords ext (candidatePairs ext st tickers)))).take
            25).map PerfRecord.pair)).take st.number_pairs :=
  rfl

theorem freshPairlist_set_last_refresh (ext : Externals) (st : PairListState)
    (tickers : List (String × Ticker)) (x : ℤ) :
    freshPairlist ext { st with last_refresh := x } tickers = freshPairlist ext st tickers :=
  rfl

theorem genPairlist_fst_of_refresh (ext : Externals) (st : PairListState) (now : ℚ)
    (cached : List String) (tickers : List (String × Ticker))
    (h : shouldRefresh st now = true) :
    (genPairlist ext st now cached tickers).1 = freshPairlist ext st tickers := by
  rw [genPairlist_of_refresh ext st now cached tickers h]
  exact freshPairlist_set_last_refresh ext st tickers (pyInt now)

theorem survivors_length_le (records : List PerfRecord) :
    (survivors records).length ≤ records.length := by
  unfold survivors
  exact le_trans (List.length_filter_le _ _)
    (le_trans (List.length_filter_le _ _) (List.length_filter_le _ _))

theorem mem_freshPairlist (ext : Externals) (st : PairListState)
    (tickers : List (String × Ticker)) (p : String)
    (hsort : ∀ l, (ext.sortDesc l).Perm l)
    (hshuf : ∀ l, (ext.shuffle l).Perm l)
    (hp : p ∈ freshPairlist ext st tickers) :
    ∃ r ∈ survivors (perfRecords ext (candidatePairs ext st tickers)), r.pair = p := by
  rw [freshPairlist_eq] at hp
  have h1 := List.take_subset _ _ hp
  have h2 := (hshuf _).mem_iff.mp h1
  obtain ⟨r, hr, hrp⟩ := List.mem_map.mp h2
  have h3 := List.take_subset _ _ hr
  have h4 := (hsort _).mem_iff.mp h3
  exact ⟨r, h4, hrp⟩

theorem mem_survivors (records : List PerfRecord) (r : PerfRecord)
    (hr : r ∈ survivors records) :
    r ∈ records ∧ optGtZero r.avg_rate_change = true ∧
      optLeMax r.avg_atr = true ∧ optGeMin r.avg_atr = true := by
  unfold survivors at hr
  have h1 := List.mem_filter.mp hr
  have h2 := List.mem_filter.mp h1.1
  have h3 := List.mem_filter.mp h2.1
  exact ⟨h3.1, h3.2, h2.2, h1.2⟩

/-! ### A fixture with one healthy candidate -/

/-- Two bars whose single rate-of-change is `0.002 > 0` and whose single
true range is `0.002 ∈ [0.0005, 0.01]`. -/
def bar1 : Bar :=
  { bopen := 1, high := 1, low := 1, close := 1, volume := 1 }

def bar2 : Bar :=
  { bopen := 1, high := 1002 / 1000, low := 1, close := 1002 / 1000, volume := 1 }

/-- An environment with one USDT-quoted pair whose fetched series is
`[bar1, bar2]`; sort and shuffle are identities. -/
def ext1 : Externals :=
  { get_pair_quote_currency := fun _ => "USDT"
    fetchSeries := fun _ => [bar1, bar2]
    sortDesc := id
    shuffle := id }

def tks1 : List (String × Ticker) :=
  [("BTC/USDT", { symbol := "BTC/USDT" })]

/-- Claim C2: every symbol in the list produced by a fresh recomputation
comes from a performance record whose `avg_rate_change` is strictly
positive and whose `avg_atr` lies in the closed band
`[0.0005, 0.01]`. -/
theorem fresh_output_momentum_volatility (ext : Externals) (st : PairListState)
    (now : ℚ) (cached : List String) (tickers : List (String × Ticker))
    (hsort : ∀ l, (ext.sortDesc l).Perm l)
    (hshuf : ∀ l, (ext.shuffle l).Perm l)
    (href : shouldRefresh st now = true) :
    ∀ p ∈ (genPairlist ext st now cached tickers).1,
      ∃ r ∈ perfRecords ext (candidatePairs ext st tickers),
        r.pair = p ∧ (∃ q, r.avg_rate_change = some q ∧ 0 < q) ∧
          (∃ a, r.avg_atr = some a ∧ 5 / 10000 ≤ a ∧ a ≤ 1 / 100) := by
  intro p hp
  rw [genPairlist_fst_of_refresh ext st now cached tickers href] at hp
  obtain ⟨r, hrs, hrp⟩ := mem_freshPairlist ext st tickers p hsort hshuf hp
  obtain ⟨hrec, hgt, hle, hge⟩ := mem_survivors _ r hrs
  refine ⟨r, hrec, hrp, ?_, ?_⟩
  · rcases hq : r.avg_rate_change with _ | q
    · rw [hq] at hgt
      simp [optGtZero] at hgt
    · rw [hq] at hgt
      exact ⟨q, rfl, by simpa [optGtZero] using hgt⟩
  · rcases ha : r.avg_atr with _ | a
    · rw [ha] at hge
      simp [optGeMin] at hge
    · rw [ha] at hge hle
      exact ⟨a, rfl, by simpa [optGeMin] using hge, by simpa [optLeMax] using hle⟩

/-- Claim C2, witness: in the one-candidate fixture the fresh output
contains `BTC/USDT`, and the theorem exhibits its performance record with
positive momentum and in-band volatility. -/
theorem fresh_output_momentum_volatility_w :
    ∃ r ∈ perfRecords ext1 (candidatePairs ext1 st0 tks1),
      r.pair = "BTC/USDT" ∧ (∃ q, r.avg_rate_change = some q ∧ 0 < q) ∧
        (∃ a, r.avg_atr = some a ∧ 5 / 10000 ≤ a ∧ a ≤ 1 / 100) := by
  have href : shouldRefresh st0 7201 = true := by
    rw [shouldRefresh_true_iff]
    norm_num [st0]
  have hmem : "BTC/USDT" ∈ (genPairlist ext1 st0 7201 [] tks1).1 := by
    rw [genPairlist_fst_of_refresh ext1 st0 7201 [] tks1 href, freshPairlist_eq]
    simp only [candidatePairs, perfRecords, survivors, ext1, tks1, st0, bar1, bar2,
      seriesMean, rocpVals, trVals, optGtZero, optLeMax, optGeMin, List.filter,
      List.filterMap, List.map, List.zipWith, List.tail, List.isEmpty, List.sum,
      List.length]
    norm_num
    have hv : ((1 : ℚ) / 500 ⊔ |1 / 500|) = 1 / 500 := by
      have h := abs_of_nonneg (show (0 : ℚ) ≤ 1 / 500 by norm_num)
      rw [h, sup_idem]
    rw [hv]
    have d1 : (decide ((2000 : ℚ)⁻¹ ≤ 500⁻¹)) = true := decide_eq_true (by norm_num)
    have d2 : (decide ((500 : ℚ)⁻¹ ≤ 100⁻¹)) = true := decide_eq_true (by norm_num)
    simp [d1, d2]
  exact fresh_output_momentum_volatility ext1 st0 7201 [] tks1
    (fun l => List.Perm.refl l) (fun l => List.Perm.refl l) href "BTC/USDT" hmem

/-- Claim C3: the fresh output's length is at most `_number_pairs`, at
most 25, and at most the number of records surviving the momentum and
volatility filters; and when fewer records survive than `_number_pairs`
(which construction keeps below 25), the output is exactly a permutation
of all survivors — never padded. -/
theorem fresh_output_length_bounds (ext : Externals) (st : PairListState)
    (now : ℚ) (cached : List String) (tickers : List (String × Ticker))
    (hsort : ∀ l, (ext.sortDesc l).Perm l)
    (hshuf : ∀ l, (ext.shuffle l).Perm l)
    (href : shouldRefresh st now = true) :
    ((genPairlist ext st now cached tickers).1.length ≤ st.number_pairs ∧
     (genPairlist ext st now cached tickers).1.length ≤ 25 ∧
     (genPairlist ext st now cached tickers).1.length ≤
       (survivors (perfRecords ext (candidatePairs ext st tickers))).length) ∧
    ((survivors (perfRecords ext (candidatePairs ext st tickers))).length <
        st.number_pairs →
      st.number_pairs ≤ 25 →
      (genPairlist ext st now cached tickers).1.Perm
        ((survivors (perfRecords ext (candidatePairs ext st tickers))).map
          PerfRecord.pair)) := by
  have hfst : (genPairlist ext st now cached tickers).1 = freshPairlist ext st tickers :=
    genPairlist_fst_of_refresh ext st now cached tickers href
  rw [hfst, freshPairlist_eq]
  generalize survivors (perfRecords ext (candidatePairs ext st tickers)) = best
  have hsortlen : (ext.sortDesc best).length = best.length := (hsort best).length_eq
  have hshuflen :
      (ext.shuffle (((ext.sortDesc best).take 25).map PerfRecord.pair)).length =
        (((ext.sortDesc best).take 25).map PerfRecord.pair).length :=
    (hshuf _).length_eq
  constructor
  · refine ⟨?_, ?_, ?_⟩ <;>
      simp only [List.length_take, hshuflen, List.length_map, hsortlen] <;> omega
  · intro hlt hn
    have hlen25 : (ext.sortDesc best).length ≤ 25 := by omega
    have htake : (ext.sortDesc best).take 25 = ext.sortDesc best :=
      List.take_of_length_le hlen25
    have hnameslen :
        (ext.shuffle (((ext.sortDesc best).take 25).map PerfRecord.pair)).length ≤
          st.number_pairs := by
      rw [hshuflen, List.length_map, htake, hsortlen]
      omega
    rw [List.take_of_length_le hnameslen]
    have h5 : (((ext.sortDesc best).take 25).map PerfRecord.pair).Perm
        (best.map PerfRecord.pair) := by
      rw [htake]
      exact (hsort best).map PerfRecord.pair
    exact (hshuf _).trans h5

/-- Claim C3, witness: in the one-candidate fixture exactly one record
survives, `_number_pairs` is 10 ≤ 25, and the fresh output is a
permutation of (here: exactly) the lone survivor. -/
theorem fresh_output_length_bounds_w :
    (genPairlist ext1 st0 7201 [] tks1).1.Perm
      ((survivors (perfRecords ext1 (candidatePairs ext1 st0 tks1))).map
        PerfRecord.pair) := by
  have href : shouldRefresh st0 7201 = true := by
    rw [shouldRefresh_true_iff]
    norm_num [st0]
  have hc : candidatePairs ext1 st0 tks1 = ["BTC/USDT"] := by
    simp [candidatePairs, ext1, tks1, st0]
  have hlt : (survivors (perfRecords ext1 (candidatePairs ext1 st0 tks1))).length <
      st0.number_pairs := by
    have h1 := survivors_length_le (perfRecords ext1 (candidatePairs ext1 st0 tks1))
    have h2 : (perfRecords ext1 (candidatePairs ext1 st0 tks1)).length ≤ 1 := by
      rw [hc]
      exact List.length_filterMap_le _ _
    have : st0.number_pairs = 10 := rfl
    omega
  exact (fresh_output_length_bounds ext1 st0 7201 [] tks1
    (fun l => List.Perm.refl l) (fun l => List.Perm.refl l) href).2
    hlt (by norm_num [st0])

/-- Claim C8: a candidate whose converted historical series is empty
contributes no performance record (and the embedding is a total function:
no exception); with an empty ticker snapshot, or with every candidate's
fetched series empty, a refreshing `gen_pairlist` returns the empty
list. -/
theorem empty_series_silent_skip (ext : Externals) (st : PairListState)
    (now : ℚ) (cached : List String) (tickers : List (String × Ticker))
    (hsort : ∀ l, (ext.sortDesc l).Perm l)
    (hshuf : ∀ l, (ext.shuffle l).Perm l)
    (href : shouldRefresh st now = true) :
    (∀ r ∈ perfRecords ext (candidatePairs ext st tickers),
      ext.fetchSeries r.pair ≠ []) ∧
    (tickers = [] → (genPairlist ext st now cached tickers).1 = []) ∧
    ((∀ p, ext.fetchSeries p = []) →
      (genPairlist ext st now cached tickers).1 = []) := by
  have hsnil : ext.sortDesc [] = [] := (hsort []).eq_nil
  have hshnil : ext.shuffle [] = [] := (hshuf []).eq_nil
  refine ⟨?_, ?_, ?_⟩
  · intro r hr
    unfold perfRecords at hr
    obtain ⟨pair, hpmem, hpf⟩ := List.mem_filterMap.mp hr
    by_cases h0 : 0 < (ext.fetchSeries pair).length
    · rw [if_pos h0] at hpf
      injection hpf with h
      rw [← h]
      exact List.length_pos.mp h0
    · rw [if_neg h0] at hpf
      exact Option.noConfusion hpf
  · intro ht
    subst ht
    rw [genPairlist_fst_of_refresh ext st now cached [] href, freshPairlist_eq]
    simp [candidatePairs, perfRecords, survivors, hsnil, hshnil]
  · intro hall
    have hrec : ∀ pl : List String, perfRecords ext pl = [] := by
      intro pl
      unfold perfRecords
      rw [List.filterMap_eq_nil_iff]
      intro a _
      simp [hall a]
    rw [genPairlist_fst_of_refresh ext st now cached tickers href, freshPairlist_eq,
      hrec]
    simp [survivors, hsnil, hshnil]

/-- Claim C8, witness: with every fetch returning an empty series, a
refreshing call returns the empty list (and raises nothing — the
embedding is total). -/
theorem empty_series_silent_skip_w :
    (genPairlist ext0 st0 7201 ["C/USDT"] tks1).1 = [] := by
  have href : shouldRefresh st0 7201 = true := by
    rw [shouldRefresh_true_iff]
    norm_num [st0]
  exact (empty_series_silent_skip ext0 st0 7201 ["C/USDT"] tks1
    (fun l => List.Perm.refl l) (fun l => List.Perm.refl l) href).2.2 (fun _ => rfl)

theorem init_ok_state (eh : Bool) (cfg : Config) (plc : PairlistConfig)
    (r : ℕ) (anchor lr : ℤ) (res : InitResult)
    (h : initBestPairList eh cfg plc r anchor lr = .ok res) :
    res.state =
      { stake_currency := cfg.stake_currency, number_pairs := r,
        sort_key := plc.sort_key.getD "quoteVolume",
        min_value := plc.min_value.getD 0, refresh_period := 7200,
        timeframe := cfg.ticker_interval, since_date := anchor,
        last_refresh := lr, number_assets := plc.number_assets.getD 0 } := by
  unfold initBestPairList at h
  dsimp only at h
  split at h
  · exact Except.noConfusion h
  · split at h
    · exact Except.noConfusion h
    · split at h
      · exact Except.noConfusion h
      · injection h with h2
        rw [← h2]

/-- Claim C9: `_number_pairs` is fixed at construction to the value drawn
from `np.random.randint(10, 25)` (so it lies in `[10, 25)`), and neither
`gen_pairlist` nor `filter_pairlist` ever changes it — it is the same
across every invocation over the instance's lifetime. -/
theorem selection_size_fixed (eh : Bool) (cfg : Config) (plc : PairlistConfig)
    (r : ℕ) (anchor lr : ℤ) (res : InitResult)
    (hinit : initBestPairList eh cfg plc r anchor lr = .ok res)
    (hr : 10 ≤ r ∧ r < 25) :
    res.state.number_pairs = r ∧
    (10 ≤ res.state.number_pairs ∧ res.state.number_pairs < 25) ∧
    (∀ (ext : Externals) (st : PairListState) (now : ℚ) (cached : List String)
      (tickers : List (String × Ticker)),
      (genPairlist ext st now cached tickers).2.1.number_pairs = st.number_pairs) ∧
    (∀ (verify : List String → List String) (st : PairListState) (pl : List String),
      (filterPairlist verify st pl).2 = st) := by
  have hs := init_ok_state eh cfg plc r anchor lr res hinit
  have hnp : res.state.number_pairs = r := by rw [hs]
  obtain ⟨hr1, hr2⟩ := hr
  refine ⟨hnp, ⟨by omega, by omega⟩, ?_, fun _ _ _ => rfl⟩
  intro ext st now cached tickers
  cases h : shouldRefresh st now
  · rw [genPairlist_of_cached ext st now cached tickers h]
  · rw [genPairlist_of_refresh ext st now cached tickers h]

def cfg0 : Config :=
  { stake_currency := "USDT", ticker_interval := "5m" }

def plc0 : PairlistConfig :=
  { number_assets := some 20, sort_key := none, min_value := none }

def initRes0 : InitResult :=
  { state :=
      { stake_currency := "USDT", number_pairs := 12, sort_key := "quoteVolume",
        min_value := 0, refresh_period := 7200, timeframe := "5m", since_date := 0,
        last_refresh := 0, number_assets := 20 }
    deprecation_warning := false }

/-- Claim C9, witness: a concrete construction with draw 12 yields a state
carrying `_number_pairs = 12`, inside the drawn range. -/
theorem selection_size_fixed_w :
    initRes0.state.number_pairs = 12 ∧
      (10 ≤ initRes0.state.number_pairs ∧ initRes0.state.number_pairs < 25) := by
  have h := selection_size_fixed true cfg0 plc0 12 0 0 initRes0 rfl
    ⟨by norm_num, by norm_num⟩
  exact ⟨h.1, h.2.1⟩

theorem init_ok_of_valid (cfg : Config) (plc : PairlistConfig) (r : ℕ)
    (anchor lr : ℤ) (j : ℕ) (hna : plc.number_assets = some j)
    (hk : validate_keys (plc.sort_key.getD "quoteVolume") = true) :
    initBestPairList true cfg plc r anchor lr =
      .ok { state :=
              { stake_currency := cfg.stake_currency, number_pairs := r,
                sort_key := plc.sort_key.getD "quoteVolume",
                min_value := plc.min_value.getD 0, refresh_period := 7200,
                timeframe := cfg.ticker_interval, since_date := anchor,
                last_refresh := lr, number_assets := j },
            deprecation_warning := plc.sort_key.getD "quoteVolume" != "quoteVolume" } := by
  unfold initBestPairList
  rw [hna]
  simp [hk]

theorem init_error_of_invalid_key (cfg : Config) (plc : PairlistConfig) (r : ℕ)
    (anchor lr : ℤ) (j : ℕ) (hna : plc.number_assets = some j)
    (hk : validate_keys (plc.sort_key.getD "quoteVolume") = false) :
    initBestPairList true cfg plc r anchor lr =
      .error ("key " ++ plc.sort_key.getD "quoteVolume" ++ " not in SORT_VALUES") := by
  unfold initBestPairList
  rw [hna]
  simp [hk]

theorem genPairlist_fst_ignores_na (ext : Externals) (st : PairListState)
    (now : ℚ) (cached : List String) (tickers : List (String × Ticker)) (k : ℕ) :
    (genPairlist ext { st with number_assets := k } now cached tickers).1 =
      (genPairlist ext st now cached tickers).1 := by
  cases h : shouldRefresh st now
  · have h' : shouldRefresh { st with number_assets := k } now = false := h
    rw [genPairlist_of_cached _ _ _ _ _ h', genPairlist_of_cached _ _ _ _ _ h]
  · have h' : shouldRefresh { st with number_assets := k } now = true := h
    rw [genPairlist_fst_of_refresh _ _ _ _ _ h', genPairlist_fst_of_refresh _ _ _ _ _ h]
    rfl

/-- Claim C10: the (present) value of `number_assets` never influences
`gen_pairlist`: two constructions differing only in that value produce,
on the same inputs, clock and random choices, identical pairlists (the
parameter only gates construction and feeds `short_desc`). -/
theorem gen_ignores_number_assets (eh : Bool) (cfg : Config) (plc : PairlistConfig)
    (n m r : ℕ) (anchor lr : ℤ) (ext : Externals) (now : ℚ)
    (cached : List String) (tickers : List (String × Ticker)) :
    (initBestPairList eh cfg { plc with number_assets := some n } r anchor lr).map
        (fun res => (genPairlist ext res.state now cached tickers).1) =
      (initBestPairList eh cfg { plc with number_assets := some m } r anchor lr).map
        (fun res => (genPairlist ext res.state now cached tickers).1) := by
  cases eh
  case false => rfl
  case true =>
    cases hk : validate_keys (plc.sort_key.getD "quoteVolume")
    case false =>
      rw [init_error_of_invalid_key cfg { plc with number_assets := some n } r anchor lr
          n rfl hk,
        init_error_of_invalid_key cfg { plc with number_assets := some m } r anchor lr
          m rfl hk]
    case true =>
      rw [init_ok_of_valid cfg { plc with number_assets := some n } r anchor lr n rfl hk,
        init_ok_of_valid cfg { plc with number_assets := some m } r anchor lr m rfl hk]
      show Except.ok ((genPairlist ext
          { stake_currency := cfg.stake_currency, number_pairs := r,
            sort_key := plc.sort_key.getD "quoteVolume",
            min_value := plc.min_value.getD 0, refresh_period := 7200,
            timeframe := cfg.ticker_interval, since_date := anchor,
            last_refresh := lr, number_assets := n } now cached tickers).1) =
        Except.ok ((genPairlist ext
          { stake_currency := cfg.stake_currency, number_pairs := r,
            sort_key := plc.sort_key.getD "quoteVolume",
            min_value := plc.min_value.getD 0, refresh_period := 7200,
            timeframe := cfg.ticker_interval, since_date := anchor,
            last_refresh := lr, number_assets := m } now cached tickers).1)
      exact congrArg Except.ok (genPairlist_fst_ignores_na ext
        { stake_currency := cfg.stake_currency, number_pairs := r,
          sort_key := plc.sort_key.getD "quoteVolume",
          min_value := plc.min_value.getD 0, refresh_period := 7200,
          timeframe := cfg.ticker_interval, since_date := anchor,
          last_refresh := lr, number_assets := m } now cached tickers n)

end BestPairList
